import Mathlib

set_option maxHeartbeats 1000000

/-!
Shallow embedding of the Superstore dashboard repository
(`dashboard_simple.py` and `dashboard.py`).

Tables are lists of rows; currency and fraction columns are embedded as
rationals (exact arithmetic stands in for the scripts' floating point,
where none of the verified properties depends on rounding error or
overflow).  Missing values (`NaN` / `NaT`) in raw columns are embedded as
`Option`; pandas dates are abstracted to a record carrying the day count
used for subtraction together with the calendar accessors the code reads
(`.dt.year`, `.dt.month`, `.dt.quarter`, `.dt.day_name()`,
`.dt.to_period('M')`).
-/

/-- Abstraction of a parsed pandas timestamp: the total day count (used by
`(Ship Date - Order Date).dt.days`) together with the calendar accessors
the loader reads from it. -/
structure CalDate where
  days : Int
  year : Int
  month : Int
  quarter : Int
  weekday : String
  yearMonth : String
deriving DecidableEq

/-- A raw CSV row as it stands right after `pd.read_csv` plus
`pd.to_datetime(..., errors='coerce')`: dates and numeric cells may be
missing (`none` embeds `NaT`/`NaN`), categorical cells are plain strings. -/
structure RawRow where
  orderDate : Option CalDate
  shipDate : Option CalDate
  region : String
  category : String
  subCategory : String
  segment : String
  shipMode : String
  sales : Option ℚ
  profit : Option ℚ
  quantity : Option ℚ
  discount : Option ℚ
deriving DecidableEq

/-- A loaded Order Record with the derived fields populated by
`load_data` in `dashboard_simple.py`. -/
structure Row where
  orderDate : CalDate
  shipDate : Option CalDate
  region : String
  category : String
  subCategory : String
  segment : String
  shipMode : String
  sales : ℚ
  profit : ℚ
  quantity : ℚ
  discount : ℚ
  year : Int
  month : Int
  quarter : Int
  weekday : String
  yearMonth : String
  shippingDays : Int
  profitMargin : ℚ
deriving DecidableEq

/-- `numpy` rounding (half to even), as applied by `.round(2)`. -/
def roundHalfEven (x : ℚ) : ℤ :=
  if x - ⌊x⌋ < 1 / 2 then ⌊x⌋
  else if 1 / 2 < x - ⌊x⌋ then ⌊x⌋ + 1
  else if ⌊x⌋ % 2 = 0 then ⌊x⌋ else ⌊x⌋ + 1

/-- Round to two decimal places (`Series.round(2)`). -/
def round2 (x : ℚ) : ℚ := (roundHalfEven (100 * x) : ℚ) / 100

/-- `Series.clip(lo, hi)`. -/
def clip (lo hi x : ℚ) : ℚ := max lo (min x hi)

/-- Profit margin derivation of `load_data` (dashboard_simple.py, lines
80-96): the column is initialised to `0.0`; rows whose `Sales` is present
and nonzero and whose `Profit` is present get
`round(Profit / Sales * 100, 2)`; infinities are then replaced by `0`
(a no-op over ℚ, where division by a nonzero rational never overflows)
and the column is clipped to `[-1000, 1000]`. -/
def profitMarginOf (sales profit : Option ℚ) : ℚ :=
  clip (-1000) 1000
    (match sales, profit with
     | some s, some p => if s ≠ 0 then round2 (p / s * 100) else 0
     | _, _ => 0)

/-- `df['Shipping_Days'] = (df['Ship Date'] - df['Order Date']).dt.days`
followed by `.fillna(0)`: a missing ship date gives a missing difference,
replaced by `0`. -/
def shippingDaysOf (od : CalDate) (sd : Option CalDate) : Int :=
  match sd with
  | some s => s.days - od.days
  | none => 0

/-- Per-row body of `load_data` (dashboard_simple.py, lines 53-104):
rows with an unparseable order date are dropped (`dropna` on
`Order Date`); when the `Ship Date` column is absent (`shipCol = false`)
the order date is used in its place; calendar features are read off the
order date; numeric columns are coerced with missing values treated as
`0` (`pd.to_numeric(...).fillna(0)` — the coercion runs after the margin
computation, so the margin sees the raw optional values). -/
def deriveRow (shipCol : Bool) (raw : RawRow) : Option Row :=
  match raw.orderDate with
  | none => none
  | some od =>
    let sd := if shipCol then raw.shipDate else some od
    some
      { orderDate := od
        shipDate := sd
        region := raw.region
        category := raw.category
        subCategory := raw.subCategory
        segment := raw.segment
        shipMode := raw.shipMode
        sales := raw.sales.getD 0
        profit := raw.profit.getD 0
        quantity := raw.quantity.getD 0
        discount := raw.discount.getD 0
        year := od.year
        month := od.month
        quarter := od.quarter
        weekday := od.weekday
        yearMonth := od.yearMonth
        shippingDays := shippingDaysOf od sd
        profitMargin := profitMarginOf raw.sales raw.profit }

/-- The Loader of `dashboard_simple.py` (`load_data`, lines 19-104), from
the parsed CSV on: date coercion, `dropna` on the order date, feature
derivation and numeric coercion, row by row. -/
def loadData (shipCol : Bool) (rows : List RawRow) : List Row :=
  rows.filterMap (deriveRow shipCol)

/-- The sidebar filter selections of `dashboard_simple.py`: one
multiselect per dimension (an empty list embeds an empty selection) and
the profit radio button, whose value is one of the three literal strings
offered by the UI. -/
structure Selection where
  years : List Int
  regions : List String
  categories : List String
  segments : List String
  shipModes : List String
  profitFilter : String
deriving DecidableEq

/-- One conditional membership filter of the filter block
(dashboard_simple.py, lines 261-272): `if selected: df = df[df[col].isin(selected)]` —
an empty (falsy) selection skips the filter. -/
def dimFilter {α : Type} [DecidableEq α] (sel : List α) (f : Row → α)
    (l : List Row) : List Row :=
  if sel.isEmpty then l else l.filter (fun r => decide (f r ∈ sel))

/-- The profit radio filter (dashboard_simple.py, lines 276-279). -/
def profitSignFilter (pf : String) (l : List Row) : List Row :=
  if pf = "利益のみ" then l.filter (fun r => decide (0 < r.profit))
  else if pf = "損失のみ" then l.filter (fun r => decide (r.profit < 0))
  else l

/-- The Filter Engine of `dashboard_simple.py` (lines 257-279): a copy of
the loaded table successively narrowed by the five conditional membership
filters and the profit radio filter. -/
def filteredDf (sel : Selection) (df : List Row) : List Row :=
  profitSignFilter sel.profitFilter
    (dimFilter sel.shipModes Row.shipMode
      (dimFilter sel.segments Row.segment
        (dimFilter sel.categories Row.category
          (dimFilter sel.regions Row.region
            (dimFilter sel.years Row.year df)))))

/-- The filter of `dashboard.py` (lines 64-69): the three `isin`
membership predicates are conjoined unconditionally — there is no
empty-selection guard in this variant. -/
def filteredDfBasic (years : List Int) (regions categories : List String)
    (df : List Row) : List Row :=
  df.filter (fun r =>
    decide (r.year ∈ years ∧ r.region ∈ regions ∧ r.category ∈ categories))

/-- `loss_orders = filtered_df[filtered_df['Profit'] < 0]`
(dashboard_simple.py, line 320). -/
def lossOrders (rows : List Row) : List Row :=
  rows.filter (fun r => decide (r.profit < 0))

/-- `loss_orders.groupby(key)['Profit'].sum().abs()`
(dashboard_simple.py, lines 642 and 660): restrict to losing rows, group
by a naming dimension, sum the (negative) profits and take absolute
values. -/
def groupLossBy (f : Row → String) (rows : List Row) : List (String × ℚ) :=
  let l := lossOrders rows
  (l.map f).dedup.map
    (fun k => (k, |((l.filter (fun r => decide (f r = k))).map Row.profit).sum|))

/-- `total_loss = abs(loss_orders['Profit'].sum()) if len(loss_orders) > 0 else 0`
(dashboard_simple.py, line 321). -/
def totalLoss (rows : List Row) : ℚ :=
  if 0 < (lossOrders rows).length then
    |((lossOrders rows).map Row.profit).sum|
  else 0

/-- `model_df['Profit_Flag'] = (model_df['Profit'] > 0).astype(int)`
(dashboard_simple.py, line 898): the training label of the profit/loss
classifier. -/
def profitFlag (p : ℚ) : Nat := if 0 < p then 1 else 0

/-- The label the discount sweep prints for a classifier output
(dashboard_simple.py, line 1033): `"利益" if pred == 1 else "損失"`. -/
def labelOfPred (n : Nat) : String := if n = 1 then "利益" else "損失"

/-- The discount grid of the simulator (dashboard_simple.py, line 996). -/
def testDiscounts : List ℚ := [0, 1 / 10, 1 / 5, 3 / 10, 2 / 5, 1 / 2]

/-- `sample_data` of the simulator (dashboard_simple.py, lines 999-1003):
the historical rows matching the selected
(category, sub-category, segment) combination. -/
def matchingRows (df : List Row) (c sc seg : String) : List Row :=
  df.filter (fun r => decide (r.category = c ∧ r.subCategory = sc ∧ r.segment = seg))

/-- Outcome of one simulator run: either the per-discount predictions
(discount, predicted margin in percent, printed label) or the
`"選択した条件のデータが見つかりません"` no-data warning. -/
inductive SimOutcome where
  | noData
  | results (preds : List (ℚ × ℚ × String))
deriving DecidableEq

/-- The discount sweep (dashboard_simple.py, lines 1005-1042 and 1080):
when at least one historical row matches, every grid discount is scored
by the fitted regressor and classifier (abstracted here as functions of
the discount, the one feature varied across the sweep); otherwise the
no-data warning is shown and no prediction is made.  The regressor output
is scaled by 100 (`predictions.append(pred_profit_rate * 100)`). -/
def simulate (df : List Row) (c sc seg : String)
    (reg : ℚ → ℚ) (clf : ℚ → Nat) : SimOutcome :=
  if 0 < (matchingRows df c sc seg).length then
    SimOutcome.results
      (testDiscounts.map (fun d => (d, reg d * 100, labelOfPred (clf d))))
  else SimOutcome.noData

/-- `max_profitable_discount` (dashboard_simple.py, lines 1060-1063):
initialised to `0`, overwritten by each grid discount whose printed label
is `"利益"`, scanning the grid in ascending order. -/
def maxProfitableDiscount (clf : ℚ → Nat) : ℚ :=
  testDiscounts.foldl
    (fun acc d => if labelOfPred (clf d) = "利益" then d else acc) 0

/-- The recommendation block's two branches. -/
inductive Recommendation where
  | recommend (d : ℚ)
  | noProfitable
deriving DecidableEq

/-- The recommendation (dashboard_simple.py, lines 1065-1077):
`if max_profitable_discount > 0:` show the recommended cap, `else` show
the no-profitable-discount warning. -/
def recommendation (clf : ℚ → Nat) : Recommendation :=
  if 0 < maxProfitableDiscount clf then
    Recommendation.recommend (maxProfitableDiscount clf)
  else Recommendation.noProfitable

/-- The recommendation as guarded by the simulator's no-data check: the
whole recommendation block sits inside `if len(sample_data) > 0:`
(dashboard_simple.py, lines 1005-1080). -/
def simulateRecommendation (df : List Row) (c sc seg : String)
    (clf : ℚ → Nat) : Option Recommendation :=
  if 0 < (matchingRows df c sc seg).length then some (recommendation clf)
  else none

/-- `valid_discount = filtered_df[(Discount >= 0) & (Discount <= 1)]`
(dashboard_simple.py, line 858). -/
def validDiscountRows (rows : List Row) : List Row :=
  rows.filter (fun r => decide (0 ≤ r.discount ∧ r.discount ≤ 1))

/-- Minimum of a rational list (pandas series minimum; the `0` default is
never reached on the nonempty series the code bins). -/
def listMin : List ℚ → ℚ
  | [] => 0
  | x :: xs => xs.foldl min x

/-- Maximum of a rational list. -/
def listMax : List ℚ → ℚ
  | [] => 0
  | x :: xs => xs.foldl max x

/-- Bin index assigned by `pd.cut(series, bins=5)`: five equal-width
right-closed intervals over the data range `[mn, mx]`, the leftmost edge
extended slightly so the minimum lands in bin 0; in the degenerate
equal-range case pandas widens the range symmetrically, putting the lone
value in the middle bin. -/
def binIdx (mn mx d : ℚ) : Nat :=
  if mn = mx then 2
  else
    let w := (mx - mn) / 5
    if d ≤ mn + w then 0
    else if d ≤ mn + 2 * w then 1
    else if d ≤ mn + 3 * w then 2
    else if d ≤ mn + 4 * w then 3
    else 4

/-- Mean of a rational list (`SeriesGroupBy.mean` on a group). -/
def meanOf (l : List ℚ) : ℚ := l.sum / l.length

/-- The valid-discount rows falling into bin `i` of
`pd.cut(valid_discount['Discount'], bins=5)` (dashboard_simple.py,
line 860). -/
def binRows (rows : List Row) (i : Nat) : List Row :=
  let v := validDiscountRows rows
  let ds := v.map Row.discount
  v.filter (fun r => decide (binIdx (listMin ds) (listMax ds) r.discount = i))

/-- What the discount-bucket profitability view shows for one bin. -/
inductive BinReport where
  | insufficient
  | empty
  | avg (q : ℚ)
deriving DecidableEq

/-- The discount-bucket profitability view, per bin (dashboard_simple.py,
lines 856-876): `if len(valid_discount) > 5:` the average profit margin
of every bin is computed and charted (a bin with no rows contributes a
missing mean); `else` the single message `"割引データが不十分です"` is
shown — the sample-size check is on the whole valid-discount table, not
per bin. -/
def binReport (rows : List Row) (i : Nat) : BinReport :=
  if 5 < (validDiscountRows rows).length then
    if (binRows rows i).isEmpty then BinReport.empty
    else BinReport.avg (meanOf ((binRows rows i).map Row.profitMargin))
  else BinReport.insufficient

/-!
Concrete sample data used by counterexamples and witnesses.
-/

/-- A concrete order date (2017-03-01, day count 0 of the sample). -/
def date0 : CalDate :=
  { days := 0, year := 2017, month := 3, quarter := 1,
    weekday := "Wednesday", yearMonth := "2017-03" }

/-- A concrete ship date three days after `date0`. -/
def date3 : CalDate :=
  { days := 3, year := 2017, month := 3, quarter := 1,
    weekday := "Saturday", yearMonth := "2017-03" }

/-- A concrete ship date five days before `date0` (bad data: shipped
before ordered). -/
def dateNeg5 : CalDate :=
  { days := -5, year := 2017, month := 2, quarter := 1,
    weekday := "Friday", yearMonth := "2017-02" }

/-- A loaded row matching the spec's worked example
(`Sales:100, Profit:-20, Region:"West", Category:"Furniture",
Discount:0.5`), with the discount and profit margin as parameters so a
small family of rows can be built. -/
def sampleRow (disc pm : ℚ) : Row :=
  { orderDate := date0, shipDate := some date0,
    region := "West", category := "Furniture", subCategory := "Tables",
    segment := "Consumer", shipMode := "Standard Class",
    sales := 100, profit := -20, quantity := 1, discount := disc,
    year := 2017, month := 3, quarter := 1, weekday := "Wednesday",
    yearMonth := "2017-03", shippingDays := 0, profitMargin := pm }

/-- The spec's worked-example row. -/
def row0 : Row := sampleRow (1 / 2) (-20)

/-- A well-formed raw CSV row (shipped three days after ordering). -/
def rawGood : RawRow :=
  { orderDate := some date0, shipDate := some date3,
    region := "West", category := "Furniture", subCategory := "Tables",
    segment := "Consumer", shipMode := "Standard Class",
    sales := some 100, profit := some (-20), quantity := some 1,
    discount := some (1 / 2) }

/-- The row `load_data` derives from `rawGood`. -/
def derivedGood : Row :=
  { orderDate := date0, shipDate := some date3,
    region := "West", category := "Furniture", subCategory := "Tables",
    segment := "Consumer", shipMode := "Standard Class",
    sales := 100, profit := -20, quantity := 1, discount := 1 / 2,
    year := 2017, month := 3, quarter := 1, weekday := "Wednesday",
    yearMonth := "2017-03", shippingDays := 3, profitMargin := -20 }

/-- A raw row whose ship date precedes its order date. -/
def rawBad : RawRow :=
  { orderDate := some date0, shipDate := some dateNeg5,
    region := "West", category := "Furniture", subCategory := "Tables",
    segment := "Consumer", shipMode := "Standard Class",
    sales := some 100, profit := some (-20), quantity := some 1,
    discount := some (1 / 2) }

/-!
Helper lemmas shared by the claim theorems.
-/

/-- Evaluating the per-row loader body on `rawGood`. -/
lemma deriveRow_good : deriveRow true rawGood = some derivedGood := by
  unfold deriveRow rawGood
  simp only
  unfold derivedGood date0 date3
  norm_num [shippingDaysOf, profitMarginOf, clip, round2, roundHalfEven]

/-- Evaluating the Loader on the one-row file `[rawGood]`. -/
lemma loadData_good : loadData true [rawGood] = [derivedGood] := by
  simp [loadData, List.filterMap_cons, deriveRow_good]

/-- Evaluating the region loss aggregate on the spec's worked example. -/
lemma groupLossBy_row0 : groupLossBy Row.region [row0] = [("West", (20 : ℚ))] := by
  unfold groupLossBy lossOrders row0 sampleRow
  norm_num [List.filter, List.dedup, List.sum]

/-- Clipping really lands in the clamp interval. -/
lemma clip_range (x : ℚ) :
    -1000 ≤ clip (-1000) 1000 x ∧ clip (-1000) 1000 x ≤ 1000 := by
  constructor
  · exact le_max_left _ _
  · exact max_le (by norm_num) (min_le_right _ _)

/-- The derived margin is always clipped, whatever the raw cells hold. -/
lemma profitMarginOf_range (s p : Option ℚ) :
    -1000 ≤ profitMarginOf s p ∧ profitMarginOf s p ≤ 1000 := by
  unfold profitMarginOf
  exact clip_range _

/-- Reading the derived fields back out of a successful `deriveRow`. -/
lemma deriveRow_fields {shipCol : Bool} {raw : RawRow} {r : Row}
    (h : deriveRow shipCol raw = some r) :
    ∃ od, raw.orderDate = some od ∧
      r.profitMargin = profitMarginOf raw.sales raw.profit ∧
      r.shippingDays = shippingDaysOf od (if shipCol then raw.shipDate else some od) := by
  unfold deriveRow at h
  cases hod : raw.orderDate with
  | none => rw [hod] at h; simp at h
  | some od =>
    rw [hod] at h
    simp only [Option.some.injEq] at h
    exact ⟨od, rfl, by rw [← h], by rw [← h]⟩

/-- C2: for every loaded table, the derived profit-margin field of every
row lies in the closed interval [-1000, 1000] (over ℚ it is a fortiori
finite), and the zero-sales guard yields margin 0. -/
theorem profitMargin_clamped :
    (∀ (shipCol : Bool) (rows : List RawRow) (r : Row),
        r ∈ loadData shipCol rows →
          -1000 ≤ r.profitMargin ∧ r.profitMargin ≤ 1000) ∧
    ∀ p : Option ℚ, profitMarginOf (some 0) p = 0 := by
  constructor
  · intro shipCol rows r hr
    obtain ⟨raw, _, hder⟩ := List.mem_filterMap.mp hr
    obtain ⟨od, _, hpm, _⟩ := deriveRow_fields hder
    rw [hpm]
    exact profitMarginOf_range _ _
  · intro p
    cases p with
    | none =>
      unfold profitMarginOf clip
      norm_num
    | some x =>
      unfold profitMarginOf clip
      norm_num

/-- Witness for C2 at a concrete load. -/
theorem profitMargin_clamped_w :
    (-1000 ≤ derivedGood.profitMargin ∧ derivedGood.profitMargin ≤ 1000) ∧
    profitMarginOf (some 0) (some 5) = 0 :=
  ⟨profitMargin_clamped.1 true [rawGood] derivedGood
      (by rw [loadData_good]; exact List.mem_singleton.mpr rfl),
   profitMargin_clamped.2 (some 5)⟩

/-- C6: a (category, sub-category, segment) combination with zero
matching historical rows makes the simulator report the no-data outcome,
which carries no model prediction for any grid discount. -/
theorem simulate_noData_of_no_match (df : List Row) (c sc seg : String)
    (reg : ℚ → ℚ) (clf : ℚ → Nat)
    (h : matchingRows df c sc seg = []) :
    simulate df c sc seg reg clf = SimOutcome.noData := by
  unfold simulate
  rw [if_neg]
  rw [h]
  simp

/-- Witness for C6: the empty table matches no combination. -/
theorem simulate_noData_of_no_match_w :
    simulate [] "Furniture" "Tables" "Consumer" (fun _ => 0) (fun _ => 0)
      = SimOutcome.noData :=
  simulate_noData_of_no_match [] "Furniture" "Tables" "Consumer"
    (fun _ => 0) (fun _ => 0) rfl

/-- C8: every group value of the region and category loss aggregates, and
the loss total, is non-negative — each is an absolute value of a summed
profit. -/
theorem lossAggregates_nonneg (rows : List Row) :
    (∀ p ∈ groupLossBy Row.region rows, 0 ≤ p.2) ∧
    (∀ p ∈ groupLossBy Row.category rows, 0 ≤ p.2) ∧
    0 ≤ totalLoss rows := by
  refine ⟨?_, ?_, ?_⟩
  · intro p hp
    obtain ⟨k, _, rfl⟩ := List.mem_map.mp hp
    exact abs_nonneg _
  · intro p hp
    obtain ⟨k, _, rfl⟩ := List.mem_map.mp hp
    exact abs_nonneg _
  · unfold totalLoss
    split
    · exact abs_nonneg _
    · exact le_refl 0

/-- Witness for C8: the spec's worked example — the region West loss
aggregate of the one-row loss table is 20, a non-negative value. -/
theorem lossAggregates_nonneg_w :
    0 ≤ (("West", (20 : ℚ)) : String × ℚ).2 :=
  (lossAggregates_nonneg [row0]).1 ("West", (20 : ℚ))
    (by rw [groupLossBy_row0]; exact List.mem_singleton.mpr rfl)

/-- C9: the Loader is a pure function of the parsed file content — two
runs on the same rows and column layout produce identical derived
tables. -/
theorem loadData_deterministic (shipCol : Bool) (rows rows2 : List RawRow)
    (h : rows = rows2) :
    loadData shipCol rows = loadData shipCol rows2 := by
  rw [h]

/-- Witness for C9 at a concrete file. -/
theorem loadData_deterministic_w :
    loadData true [rawGood] = loadData true [rawGood] :=
  loadData_deterministic true [rawGood] [rawGood] rfl

/-- C10: a training row with profit exactly 0 is labelled with the loss
class (the flag is 1 only for strictly positive profit), and the sweep
prints flag 0 as `"損失"`. -/
theorem profitFlag_zero_is_loss (p : ℚ) (h : p = 0) :
    profitFlag p = 0 ∧ labelOfPred (profitFlag p) = "損失" := by
  subst h
  constructor
  · decide
  · decide

/-- Witness for C10 at profit 0. -/
theorem profitFlag_zero_is_loss_w :
    profitFlag 0 = 0 ∧ labelOfPred (profitFlag 0) = "損失" :=
  profitFlag_zero_is_loss 0 rfl

/-!
Filter Engine lemmas (claims C1 and C5).
-/

/-- Each conditional membership filter only drops rows. -/
lemma dimFilter_sublist {α : Type} [DecidableEq α] (sel : List α)
    (f : Row → α) (l : List Row) : (dimFilter sel f l).Sublist l := by
  unfold dimFilter
  split
  · exact List.Sublist.refl l
  · exact List.filter_sublist l

/-- The profit radio filter only drops rows. -/
lemma profitSignFilter_sublist (pf : String) (l : List Row) :
    (profitSignFilter pf l).Sublist l := by
  unfold profitSignFilter
  split_ifs
  · exact List.filter_sublist l
  · exact List.filter_sublist l
  · exact List.Sublist.refl l

/-- The whole filter chain produces a sublist of the loaded table. -/
lemma filteredDf_sublist (sel : Selection) (df : List Row) :
    (filteredDf sel df).Sublist df := by
  unfold filteredDf
  exact (profitSignFilter_sublist _ _).trans
    ((dimFilter_sublist _ _ _).trans
      ((dimFilter_sublist _ _ _).trans
        ((dimFilter_sublist _ _ _).trans
          ((dimFilter_sublist _ _ _).trans (dimFilter_sublist _ _ _)))))

/-- An empty selection skips its filter. -/
lemma dimFilter_nil {α : Type} [DecidableEq α] (f : Row → α) (l : List Row) :
    dimFilter ([] : List α) f l = l := by
  unfold dimFilter
  rfl

/-- Selecting every value a dimension takes in the loaded table keeps
every row of any partial filtering stage of that table. -/
lemma dimFilter_all_values {α : Type} [DecidableEq α] (f : Row → α)
    (df l : List Row) (h : l.Sublist df) : dimFilter (df.map f) f l = l := by
  unfold dimFilter
  split
  · rfl
  · apply List.filter_eq_self.mpr
    intro a ha
    simp only [decide_eq_true_eq]
    exact List.mem_map_of_mem f (h.subset ha)

/-- The radio value `"すべて"` applies no profit filter. -/
lemma profitSignFilter_all_pass (l : List Row) :
    profitSignFilter "すべて" l = l := by
  unfold profitSignFilter
  rw [if_neg (by decide), if_neg (by decide)]

/-- The radio value `"損失のみ"` keeps exactly the losing rows. -/
lemma profitSignFilter_loss (l : List Row) :
    profitSignFilter "損失のみ" l = l.filter (fun r => decide (r.profit < 0)) := by
  unfold profitSignFilter
  rw [if_neg (by decide), if_pos rfl]

/-- C1 counterexample (the claim as stated fails on `dashboard.py`): in
that variant's filter the `isin` predicates are applied unconditionally,
so the empty year selection excludes the only row of a one-row table,
while selecting all of its year values keeps it — the two selections do
not agree and the empty selection does not pass rows through. -/
theorem filteredDfBasic_empty_selection_excludes :
    filteredDfBasic [] ["West"] ["Furniture"] [row0] = [] ∧
    filteredDfBasic [2017] ["West"] ["Furniture"] [row0] = [row0] := by
  constructor
  · unfold filteredDfBasic row0 sampleRow
    norm_num [List.filter]
  · unfold filteredDfBasic row0 sampleRow
    norm_num [List.filter]

/-- C1 (amended to the variant with the empty-selection guard): in the
Filter Engine of `dashboard_simple.py`, an empty selection on any one of
the five dimensions yields exactly the rows of the selection holding all
values that dimension takes in the loaded table, and the all-empty
selection with the `"すべて"` radio passes the whole table through. -/
theorem filteredDf_empty_eq_all_values (ys : List Int)
    (rs cs segs ms : List String) (pf : String) (df : List Row) :
    filteredDf ⟨[], rs, cs, segs, ms, pf⟩ df
      = filteredDf ⟨df.map Row.year, rs, cs, segs, ms, pf⟩ df ∧
    filteredDf ⟨ys, [], cs, segs, ms, pf⟩ df
      = filteredDf ⟨ys, df.map Row.region, cs, segs, ms, pf⟩ df ∧
    filteredDf ⟨ys, rs, [], segs, ms, pf⟩ df
      = filteredDf ⟨ys, rs, df.map Row.category, segs, ms, pf⟩ df ∧
    filteredDf ⟨ys, rs, cs, [], ms, pf⟩ df
      = filteredDf ⟨ys, rs, cs, df.map Row.segment, ms, pf⟩ df ∧
    filteredDf ⟨ys, rs, cs, segs, [], pf⟩ df
      = filteredDf ⟨ys, rs, cs, segs, df.map Row.shipMode, pf⟩ df ∧
    filteredDf ⟨[], [], [], [], [], "すべて"⟩ df = df := by
  refine ⟨?_, ?_, ?_, ?_, ?_, ?_⟩
  · unfold filteredDf
    rw [dimFilter_nil, dimFilter_all_values Row.year df df (List.Sublist.refl df)]
  · have h : (dimFilter ys Row.year df).Sublist df := dimFilter_sublist _ _ _
    unfold filteredDf
    rw [dimFilter_nil, dimFilter_all_values Row.region df _ h]
  · have h : (dimFilter rs Row.region (dimFilter ys Row.year df)).Sublist df :=
      (dimFilter_sublist _ _ _).trans (dimFilter_sublist _ _ _)
    unfold filteredDf
    rw [dimFilter_nil, dimFilter_all_values Row.category df _ h]
  · have h : (dimFilter cs Row.category
        (dimFilter rs Row.region (dimFilter ys Row.year df))).Sublist df :=
      (dimFilter_sublist _ _ _).trans
        ((dimFilter_sublist _ _ _).trans (dimFilter_sublist _ _ _))
    unfold filteredDf
    rw [dimFilter_nil, dimFilter_all_values Row.segment df _ h]
  · have h : (dimFilter segs Row.segment (dimFilter cs Row.category
        (dimFilter rs Row.region (dimFilter ys Row.year df)))).Sublist df :=
      (dimFilter_sublist _ _ _).trans
        ((dimFilter_sublist _ _ _).trans
          ((dimFilter_sublist _ _ _).trans (dimFilter_sublist _ _ _)))
    unfold filteredDf
    rw [dimFilter_nil, dimFilter_all_values Row.shipMode df _ h]
  · unfold filteredDf
    rw [dimFilter_nil, dimFilter_nil, dimFilter_nil, dimFilter_nil,
      dimFilter_nil, profitSignFilter_all_pass]

/-- C5 counterexample to strictness: the all-pass selection returns the
whole (nonempty) loaded table, so the filtered view is not in general a
strict subset of the loaded rows. -/
theorem filteredDf_can_equal_whole :
    filteredDf ⟨[], [], [], [], [], "すべて"⟩ [row0] = [row0] ∧
    ([row0] : List Row) ≠ [] := by
  constructor
  · rw [show filteredDf ⟨[], [], [], [], [], "すべて"⟩ [row0]
        = profitSignFilter "すべて" (dimFilter [] Row.shipMode (dimFilter []
          Row.segment (dimFilter [] Row.category (dimFilter [] Row.region
            (dimFilter [] Row.year [row0]))))) from rfl]
    rw [dimFilter_nil, dimFilter_nil, dimFilter_nil, dimFilter_nil,
      dimFilter_nil, profitSignFilter_all_pass]
  · simp

/-- C5 (amended: subset, not strict subset): for every selection the
filtered view is a sublist of the loaded table — rows are only selected,
never altered, and since both tables consist of the same `Row` record
type the schema is shared by construction. -/
theorem filteredDf_subset_no_mutation (sel : Selection) (df : List Row) :
    (filteredDf sel df).Sublist df ∧
    ∀ r, r ∈ filteredDf sel df → r ∈ df := by
  refine ⟨filteredDf_sublist sel df, ?_⟩
  intro r hr
  exact (filteredDf_sublist sel df).subset hr

/-- The spec's worked-example selection: region West, loss-only. -/
def selLoss : Selection :=
  ⟨[2017], ["West"], ["Furniture"], ["Consumer"], ["Standard Class"], "損失のみ"⟩

/-- Evaluating the filter chain of the worked example. -/
lemma filteredDf_selLoss : filteredDf selLoss [row0] = [row0] := by
  rw [show filteredDf selLoss [row0]
      = profitSignFilter "損失のみ" (dimFilter ["Standard Class"] Row.shipMode
        (dimFilter ["Consumer"] Row.segment (dimFilter ["Furniture"] Row.category
          (dimFilter ["West"] Row.region (dimFilter [2017] Row.year [row0])))))
      from rfl]
  rw [profitSignFilter_loss]
  unfold dimFilter row0 sampleRow
  norm_num [List.filter]

/-- Witness for C5: the worked-example filter keeps the loss row, and the
kept row is literally a member of the loaded table. -/
theorem filteredDf_subset_no_mutation_w : row0 ∈ ([row0] : List Row) :=
  (filteredDf_subset_no_mutation selLoss [row0]).2 row0
    (by rw [filteredDf_selLoss]; exact List.mem_singleton.mpr rfl)

/-!
Loader shipping-day lemmas (claim C7).
-/

/-- C7 counterexample: a row shipped five days before it was ordered
loads with a negative shipping-day count — nothing in `load_data` floors
the difference at zero. -/
theorem shippingDays_negative_example :
    (loadData true [rawBad]).map Row.shippingDays = [-5] ∧ (-5 : ℤ) < 0 := by
  constructor
  · unfold loadData rawBad
    simp only [List.filterMap_cons, List.filterMap_nil]
    unfold deriveRow
    simp only
    norm_num [shippingDaysOf, dateNeg5, date0, List.map]
  · norm_num

/-- C7 (amended): the shipping-day count of every loaded row is
non-negative provided every raw row with both dates present has its ship
date on or after its order date; missing ship dates (or a missing
`Ship Date` column) contribute a count of zero. -/
theorem shippingDays_nonneg_of_ordered (shipCol : Bool) (rows : List RawRow)
    (h : ∀ raw ∈ rows, ∀ od sd, raw.orderDate = some od →
      raw.shipDate = some sd → od.days ≤ sd.days) :
    ∀ r ∈ loadData shipCol rows, 0 ≤ r.shippingDays := by
  intro r hr
  obtain ⟨raw, hmem, hder⟩ := List.mem_filterMap.mp hr
  obtain ⟨od, hod, _, hsd⟩ := deriveRow_fields hder
  rw [hsd]
  cases shipCol with
  | false =>
    simp [shippingDaysOf]
  | true =>
    cases hsdate : raw.shipDate with
    | none => simp [shippingDaysOf, hsdate]
    | some sd =>
      have hle := h raw hmem od sd hod hsdate
      simp [shippingDaysOf, hsdate]
      omega

/-- Witness for C7 on a well-ordered one-row file. -/
theorem shippingDays_nonneg_of_ordered_w : 0 ≤ derivedGood.shippingDays :=
  shippingDays_nonneg_of_ordered true [rawGood]
    (by
      intro raw hraw od sd h1 h2
      rw [List.mem_singleton] at hraw
      subst hraw
      simp only [rawGood, Option.some.injEq] at h1 h2
      subst h1
      subst h2
      norm_num [date0, date3])
    derivedGood (by rw [loadData_good]; exact List.mem_singleton.mpr rfl)

/-!
Discount-bucket profitability lemmas (claim C3).
-/

/-- Six valid-discount rows: five at discount 0 and one at discount 1,
all with profit margin 10. -/
def rows6 : List Row :=
  [sampleRow 0 10, sampleRow 0 10, sampleRow 0 10, sampleRow 0 10,
   sampleRow 0 10, sampleRow 1 10]

/-- All six rows have a discount in [0, 1]. -/
lemma validDiscountRows_rows6 : validDiscountRows rows6 = rows6 := by
  unfold validDiscountRows rows6 sampleRow
  norm_num [List.filter]

/-- Only the discount-1 row lands in the last bin. -/
lemma binRows_rows6_4 : binRows rows6 4 = [sampleRow 1 10] := by
  simp only [binRows]
  rw [validDiscountRows_rows6]
  unfold rows6 sampleRow listMin listMax binIdx
  norm_num [List.filter]

/-- C3 counterexample: on a table of six valid-discount rows whose last
bin holds a single row, the view computes a numeric average for that bin
(its one margin, 10) instead of reporting insufficient data — the
`> 5` sample check guards the whole table, not each bin. -/
theorem binReport_small_bin_numeric :
    (binRows rows6 4).length = 1 ∧ (1 : Nat) < 5 ∧
    binReport rows6 4 = BinReport.avg 10 := by
  refine ⟨?_, by norm_num, ?_⟩
  · rw [binRows_rows6_4]
    rfl
  · unfold binReport
    rw [validDiscountRows_rows6, binRows_rows6_4]
    rw [if_pos (by unfold rows6; norm_num)]
    rw [if_neg (by simp)]
    unfold meanOf sampleRow
    norm_num

/-- C3 (amended): the discount-bucket view reports insufficient data for
a bin exactly when the whole filtered table has at most 5 rows with a
discount in [0, 1]; the threshold is global, independent of the bin and
of how many rows fall into it. -/
theorem binReport_insufficient_iff_total_le_five (rows : List Row) (i : Nat) :
    binReport rows i = BinReport.insufficient ↔
      (validDiscountRows rows).length ≤ 5 := by
  unfold binReport
  split_ifs with h hb
  · constructor
    · intro he
      exact he.elim
    · intro hle
      exact absurd hle (by omega)
  · constructor
    · intro he
      exact he.elim
    · intro hle
      exact absurd hle (by omega)
  · constructor
    · intro _
      omega
    · intro _
      rfl

/-!
Discount-sweep recommendation lemmas (claim C4).
-/

/-- The printed sweep label reads `"利益"` exactly for classifier
output 1. -/
lemma label_eq_profit_iff (n : Nat) : labelOfPred n = "利益" ↔ n = 1 := by
  unfold labelOfPred
  split_ifs with h
  · simp [h]
  · constructor
    · intro he
      exact absurd he (by decide)
    · intro hn
      exact absurd hn h

/-- Unfolding the ascending scan of the grid: the kept value is decided
from the largest grid discount downwards, defaulting to 0 (the grid point
0 can never change the accumulator away from 0). -/
lemma maxProfitableDiscount_eq (clf : ℚ → Nat) :
    maxProfitableDiscount clf =
      if clf (1 / 2 : ℚ) = 1 then 1 / 2
      else if clf (2 / 5 : ℚ) = 1 then 2 / 5
      else if clf (3 / 10 : ℚ) = 1 then 3 / 10
      else if clf (1 / 5 : ℚ) = 1 then 1 / 5
      else if clf (1 / 10 : ℚ) = 1 then 1 / 10
      else 0 := by
  unfold maxProfitableDiscount testDiscounts
  simp only [List.foldl_cons, List.foldl_nil, label_eq_profit_iff, ite_self]

/-- Case analysis of the recommendation block: the warning branch fires
exactly when no strictly positive grid discount is classified as profit,
and the recommended cap, when shown, is the largest profitable grid
discount. -/
lemma recommendation_cases (clf : ℚ → Nat) :
    (recommendation clf = Recommendation.noProfitable ↔
      ∀ d ∈ testDiscounts, 0 < d → clf d ≠ 1) ∧
    ∀ d0 : ℚ, recommendation clf = Recommendation.recommend d0 →
      d0 ∈ testDiscounts ∧ clf d0 = 1 ∧
        ∀ d ∈ testDiscounts, clf d = 1 → d ≤ d0 := by
  by_cases h5 : clf (1 / 2 : ℚ) = 1
  · have hmax : maxProfitableDiscount clf = 1 / 2 := by
      rw [maxProfitableDiscount_eq, if_pos h5]
    have hrec : recommendation clf = Recommendation.recommend (1 / 2) := by
      unfold recommendation
      rw [hmax, if_pos (by norm_num)]
    refine ⟨⟨fun he => ?_, fun hall => ?_⟩, fun d0 he => ?_⟩
    · rw [hrec] at he
      simp at he
    · exact absurd h5 (hall (1 / 2) (by norm_num [testDiscounts]) (by norm_num))
    · rw [hrec] at he
      injection he with h'
      subst h'
      refine ⟨by norm_num [testDiscounts], h5, ?_⟩
      intro d hd hc
      simp only [testDiscounts, List.mem_cons, List.not_mem_nil, or_false] at hd
      rcases hd with rfl | rfl | rfl | rfl | rfl | rfl <;> norm_num
  · by_cases h4 : clf (2 / 5 : ℚ) = 1
    · have hmax : maxProfitableDiscount clf = 2 / 5 := by
        rw [maxProfitableDiscount_eq, if_neg h5, if_pos h4]
      have hrec : recommendation clf = Recommendation.recommend (2 / 5) := by
        unfold recommendation
        rw [hmax, if_pos (by norm_num)]
      refine ⟨⟨fun he => ?_, fun hall => ?_⟩, fun d0 he => ?_⟩
      · rw [hrec] at he
        simp at he
      · exact absurd h4 (hall (2 / 5) (by norm_num [testDiscounts]) (by norm_num))
      · rw [hrec] at he
        injection he with h'
        subst h'
        refine ⟨by norm_num [testDiscounts], h4, ?_⟩
        intro d hd hc
        simp only [testDiscounts, List.mem_cons, List.not_mem_nil, or_false] at hd
        rcases hd with rfl | rfl | rfl | rfl | rfl | rfl
        · norm_num
        · norm_num
        · norm_num
        · norm_num
        · norm_num
        · exact absurd hc h5
    · by_cases h3 : clf (3 / 10 : ℚ) = 1
      · have hmax : maxProfitableDiscount clf = 3 / 10 := by
          rw [maxProfitableDiscount_eq, if_neg h5, if_neg h4, if_pos h3]
        have hrec : recommendation clf = Recommendation.recommend (3 / 10) := by
          unfold recommendation
          rw [hmax, if_pos (by norm_num)]
        refine ⟨⟨fun he => ?_, fun hall => ?_⟩, fun d0 he => ?_⟩
        · rw [hrec] at he
          simp at he
        · exact absurd h3 (hall (3 / 10) (by norm_num [testDiscounts]) (by norm_num))
        · rw [hrec] at he
          injection he with h'
          subst h'
          refine ⟨by norm_num [testDiscounts], h3, ?_⟩
          intro d hd hc
          simp only [testDiscounts, List.mem_cons, List.not_mem_nil, or_false] at hd
          rcases hd with rfl | rfl | rfl | rfl | rfl | rfl
          · norm_num
          · norm_num
          · norm_num
          · norm_num
          · exact absurd hc h4
          · exact absurd hc h5
      · by_cases h2 : clf (1 / 5 : ℚ) = 1
        · have hmax : maxProfitableDiscount clf = 1 / 5 := by
            rw [maxProfitableDiscount_eq, if_neg h5, if_neg h4, if_neg h3,
              if_pos h2]
          have hrec : recommendation clf = Recommendation.recommend (1 / 5) := by
            unfold recommendation
            rw [hmax, if_pos (by norm_num)]
          refine ⟨⟨fun he => ?_, fun hall => ?_⟩, fun d0 he => ?_⟩
          · rw [hrec] at he
            simp at he
          · exact absurd h2 (hall (1 / 5) (by norm_num [testDiscounts]) (by norm_num))
          · rw [hrec] at he
            injection he with h'
            subst h'
            refine ⟨by norm_num [testDiscounts], h2, ?_⟩
            intro d hd hc
            simp only [testDiscounts, List.mem_cons, List.not_mem_nil, or_false] at hd
            rcases hd with rfl | rfl | rfl | rfl | rfl | rfl
            · norm_num
            · norm_num
            · norm_num
            · exact absurd hc h3
            · exact absurd hc h4
            · exact absurd hc h5
        · by_cases h1 : clf (1 / 10 : ℚ) = 1
          · have hmax : maxProfitableDiscount clf = 1 / 10 := by
              rw [maxProfitableDiscount_eq, if_neg h5, if_neg h4, if_neg h3,
                if_neg h2, if_pos h1]
            have hrec : recommendation clf = Recommendation.recommend (1 / 10) := by
              unfold recommendation
              rw [hmax, if_pos (by norm_num)]
            refine ⟨⟨fun he => ?_, fun hall => ?_⟩, fun d0 he => ?_⟩
            · rw [hrec] at he
              simp at he
            · exact absurd h1 (hall (1 / 10) (by norm_num [testDiscounts]) (by norm_num))
            · rw [hrec] at he
              injection he with h'
              subst h'
              refine ⟨by norm_num [testDiscounts], h1, ?_⟩
              intro d hd hc
              simp only [testDiscounts, List.mem_cons, List.not_mem_nil, or_false] at hd
              rcases hd with rfl | rfl | rfl | rfl | rfl | rfl
              · norm_num
              · norm_num
              · exact absurd hc h2
              · exact absurd hc h3
              · exact absurd hc h4
              · exact absurd hc h5
          · have hmax : maxProfitableDiscount clf = 0 := by
              rw [maxProfitableDiscount_eq, if_neg h5, if_neg h4, if_neg h3,
                if_neg h2, if_neg h1]
            have hrec : recommendation clf = Recommendation.noProfitable := by
              unfold recommendation
              rw [hmax, if_neg (by norm_num)]
            refine ⟨⟨fun _ => ?_, fun _ => hrec⟩, fun d0 he => ?_⟩
            · intro d hd hpos
              simp only [testDiscounts, List.mem_cons, List.not_mem_nil, or_false] at hd
              rcases hd with rfl | rfl | rfl | rfl | rfl | rfl
              · exact absurd hpos (by norm_num)
              · exact h1
              · exact h2
              · exact h3
              · exact h4
              · exact h5
            · rw [hrec] at he
              simp at he

/-- The classifier deeming only the 0% grid point profitable. -/
def clf0 : ℚ → Nat := fun d => if d = 0 then 1 else 0

/-- The classifier deeming the grid points up to 20% profitable. -/
def clfW : ℚ → Nat := fun d => if d ≤ 1 / 5 then 1 else 0

/-- C4 counterexample: for a combination with matching history and a
classifier predicting profit exactly at the 0% grid point, the code shows
the no-profitable-discount warning even though a grid value is predicted
profitable — the recommendation ignores the 0% grid point because
`max_profitable_discount` starts at 0 and the success branch requires it
to be strictly positive. -/
theorem recommendation_zero_only_profit :
    simulateRecommendation [row0] "Furniture" "Tables" "Consumer" clf0
      = some Recommendation.noProfitable ∧
    clf0 0 = 1 ∧ (0 : ℚ) ∈ testDiscounts := by
  refine ⟨?_, by norm_num [clf0], by norm_num [testDiscounts]⟩
  have hne : 0 < (matchingRows [row0] "Furniture" "Tables" "Consumer").length := by
    unfold matchingRows row0 sampleRow
    norm_num [List.filter]
  unfold simulateRecommendation
  rw [if_pos hne]
  have hmax : maxProfitableDiscount clf0 = 0 := by
    rw [maxProfitableDiscount_eq]
    norm_num [clf0]
  unfold recommendation
  rw [hmax, if_neg (by norm_num)]

/-- C4 (amended): for a combination with at least one matching historical
row, the simulator surfaces the recommendation block; the warning that no
profitable discount exists fires exactly when no strictly positive grid
discount is predicted profitable (so it also fires when only the 0% grid
point is profitable), and whenever a cap is recommended it is the largest
grid value the classifier predicts as profit. -/
theorem recommendation_spec (df : List Row) (c sc seg : String)
    (clf : ℚ → Nat) (h : matchingRows df c sc seg ≠ []) :
    simulateRecommendation df c sc seg clf = some (recommendation clf) ∧
    (recommendation clf = Recommendation.noProfitable ↔
      ∀ d ∈ testDiscounts, 0 < d → clf d ≠ 1) ∧
    ∀ d0 : ℚ, recommendation clf = Recommendation.recommend d0 →
      d0 ∈ testDiscounts ∧ clf d0 = 1 ∧
        ∀ d ∈ testDiscounts, clf d = 1 → d ≤ d0 := by
  refine ⟨?_, (recommendation_cases clf).1, (recommendation_cases clf).2⟩
  unfold simulateRecommendation
  rw [if_pos (List.length_pos.mpr h)]

/-- Witness for C4 on a one-row history and a concrete classifier. -/
theorem recommendation_spec_w :
    simulateRecommendation [row0] "Furniture" "Tables" "Consumer" clfW
      = some (recommendation clfW) ∧ clfW (1 / 5) = 1 := by
  constructor
  · exact (recommendation_spec [row0] "Furniture" "Tables" "Consumer" clfW
      (by unfold matchingRows row0 sampleRow; norm_num [List.filter])).1
  · norm_num [clfW]
